import Mathlib

set_option maxRecDepth 8000

/-
Shallow embedding of the Blockchain RPC Compatibility Auditor scripts.

Each JSON-RPC call made by the scripts is represented by an `RpcOutcome`
value supplied by an oracle record: `ok v` models a call that returned `v`,
`err msg` models a call that threw (JSON-RPC error object, revert, or
transport failure) with message `msg`.  The scripts' try/catch probes and
their pure classification logic are translated into total Lean functions
over these oracles.
-/

/-- Outcome of one JSON-RPC (or contract) call: either a returned value or a
thrown error with its message. -/
inductive RpcOutcome (α : Type) : Type where
  | ok (value : α) : RpcOutcome α
  | err (msg : String) : RpcOutcome α
  deriving DecidableEq, Repr

/-- True when the call returned normally (the JS `try` branch runs to the end). -/
def RpcOutcome.isOk {α : Type} : RpcOutcome α → Bool
  | .ok _ => true
  | .err _ => false

/-- The fields of an ethers.js block object that the scripts inspect:
`baseFeePerGas` (absent on pre-London chains) and `miner`. -/
structure BlockInfo where
  baseFeePerGas : Option Nat
  miner : Option String
  deriving DecidableEq, Repr

/-- The boolean EIP feature flags the auditors build (`this.results.eips`). -/
structure EipFlags where
  eip1559 : Bool
  eip1344 : Bool
  eip3198 : Bool
  eip3651 : Bool
  eip3855 : Bool
  eip211 : Bool
  eip145 : Bool
  eip2718 : Bool
  eip2930 : Bool
  eip3860 : Bool
  deriving DecidableEq, Repr

/-- Modelled from the spec (section 4.1 `classifyHardFork`): evaluate tiers
from newest to oldest and return the first tier whose required flags are all
true (shanghai needs EIP-3855; london needs EIP-1559 and EIP-3198; berlin
needs the typed-transaction flags EIP-2718 and EIP-2930; istanbul needs
EIP-1344).  This definition follows the spec's words and is compared with
the classifiers embedded from the source. -/
def specClassifyHardFork (f : EipFlags) : String :=
  if f.eip3855 then "shanghai"
  else if f.eip1559 && f.eip3198 then "london"
  else if f.eip2718 && f.eip2930 then "berlin"
  else if f.eip1344 then "istanbul"
  else "unknown"

/-- (JS `Math.round (num / den)` for nonnegative integers `num`, `den > 0`:
round half up.) -/
def jsRound (num den : Nat) : Nat :=
  (2 * num + den) / (2 * den)

namespace AdvancedEVM

/- src/scripts/advanced-evm-audit.js, class AdvancedEVMAuditor. -/

/-- The RPC responses one run of the advanced auditor can observe. -/
structure Oracle where
  getBlockNumber : RpcOutcome Nat
  ethChainId : RpcOutcome Nat
  getBalance : RpcOutcome Nat
  getBlockLatest : RpcOutcome BlockInfo
  callBasefee : RpcOutcome String
  callPush0 : RpcOutcome String
  callReturndatasize : RpcOutcome String
  callShl : RpcOutcome String
  callShr : RpcOutcome String
  deploy : RpcOutcome String
  deriving DecidableEq, Repr

/-- Connection metadata captured by `initialize` (`this.results.chainInfo`). -/
structure ConnInfo where
  chainId : Nat
  blockNumber : Nat
  balance : Option Nat
  deriving DecidableEq, Repr

/-- `AdvancedEVMAuditor.initialize`: connects, records chain info, and on any
throw logs and returns `false` (modelled as `none`).  With a signer the
balance is also fetched inside the same try. -/
def connectInit (hasSigner : Bool) (o : Oracle) : Option ConnInfo :=
  match o.getBlockNumber, o.ethChainId with
  | .ok bn, .ok cid =>
    if hasSigner then
      match o.getBalance with
      | .ok b => some ⟨cid, bn, some b⟩
      | .err _ => none
    else some ⟨cid, bn, none⟩
  | _, _ => none

/-- The EIP flags built by `testSolidity023Compatibility` (lines 66-155):
each probe is a try/catch that stores `true` on success and `false` on
throw; EIP-2718, EIP-2930 and EIP-3860 are then set to `true`
unconditionally. -/
def computeEips (o : Oracle) : EipFlags where
  eip1559 :=
    match o.getBlockLatest with
    | .ok b => match b.baseFeePerGas with
      | some f => decide (0 < f)
      | none => false
    | .err _ => false
  eip1344 :=
    match o.ethChainId with
    | .ok cid => decide (0 < cid)
    | .err _ => false
  eip3198 := o.callBasefee.isOk
  eip3651 :=
    match o.getBlockLatest with
    | .ok b => b.miner.isSome
    | .err _ => false
  eip3855 := o.callPush0.isOk
  eip211 := o.callReturndatasize.isOk
  eip145 := o.callShl.isOk && o.callShr.isOk
  eip2718 := true
  eip2930 := true
  eip3860 := true

/-- `AdvancedEVMAuditor.determineEVMVersion` (lines 207-232): the four-tier
ordered decision tree over `this.results.eips`. -/
def determineEVMVersion (e : EipFlags) : String :=
  if e.eip3855 then "shanghai"
  else if e.eip1559 && e.eip3198 then "london"
  else if e.eip2718 && e.eip2930 then "berlin"
  else if e.eip1344 then "istanbul"
  else "unknown"

/-- The parts of the saved report relevant to the claims. -/
structure Results where
  chainInfo : ConnInfo
  eips : EipFlags
  evmVersion : String
  deployment : Bool
  deriving DecidableEq, Repr

/-- `AdvancedEVMAuditor.runFullAudit`: returns early (no report) when
`initialize` fails; otherwise probes, classifies and assembles the report.
The deployment test runs only with a signer and its failure is caught. -/
def runFullAudit (hasSigner : Bool) (o : Oracle) : Option Results :=
  match connectInit hasSigner o with
  | none => none
  | some ci =>
    some { chainInfo := ci
           eips := computeEips o
           evmVersion := determineEVMVersion (computeEips o)
           deployment := hasSigner && o.deploy.isOk }

/-- The probe responses that feed the feature flags: everything except the
connection fields `getBlockNumber` and `getBalance` (which only land in
`chainInfo.blockNumber` / `chainInfo.balance`). -/
def probeView (o : Oracle) :
    RpcOutcome Nat × RpcOutcome BlockInfo × RpcOutcome String ×
    RpcOutcome String × RpcOutcome String × RpcOutcome String ×
    RpcOutcome String :=
  (o.ethChainId, o.getBlockLatest, o.callBasefee, o.callPush0,
   o.callReturndatasize, o.callShl, o.callShr)

end AdvancedEVM

namespace Part8

/- src/unnamed/part_008, class AdvancedEVMAuditor (variant), lines 328-352. -/

/-- `determineEVMVersion` of the part_008 variant: its shanghai tier
requires EIP-3855, EIP-3860 and EIP-3651 together. -/
def determineEVMVersion (e : EipFlags) : String :=
  if e.eip3855 && e.eip3860 && e.eip3651 then "shanghai"
  else if e.eip1559 && e.eip3198 then "london"
  else if e.eip2718 && e.eip2930 then "berlin"
  else if e.eip1344 then "istanbul"
  else "unknown"

end Part8

namespace Quick

/- src/unnamed/part_000, class QuickAdvancedAuditor, lines 153-172. -/

/-- `QuickAdvancedAuditor.determineEVMVersion`: no berlin tier at all;
london falls through directly to istanbul. -/
def determineEVMVersion (e : EipFlags) : String :=
  if e.eip3855 then "shanghai"
  else if e.eip1559 && e.eip3198 then "london"
  else if e.eip1344 then "istanbul"
  else "unknown"

end Quick

namespace MultiChain

/- src/unnamed/part_004, class MultiChainAuditor, lines 522-544. -/

/-- `MultiChainAuditor.determineEVMVersion`: like part_008, shanghai
requires EIP-3855, EIP-3860 and EIP-3651 together. -/
def determineEVMVersion (e : EipFlags) : String :=
  if e.eip3855 && e.eip3860 && e.eip3651 then "shanghai"
  else if e.eip1559 && e.eip3198 then "london"
  else if e.eip2718 && e.eip2930 then "berlin"
  else if e.eip1344 then "istanbul"
  else "unknown"

end MultiChain

section ClassifierLemmas

/-- An input on which the part_008/part_004 shanghai tier differs from the
spec tree: EIP-3855 true but EIP-3860 false. -/
def flagsPush0Only : EipFlags :=
  { eip1559 := true, eip1344 := true, eip3198 := true, eip3651 := false
    eip3855 := true, eip211 := false, eip145 := false, eip2718 := false
    eip2930 := false, eip3860 := false }

/-- An input exercising the missing berlin tier of the part_000 variant. -/
def flagsTypedTxOnly : EipFlags :=
  { eip1559 := false, eip1344 := false, eip3198 := false, eip3651 := false
    eip3855 := false, eip211 := false, eip145 := false, eip2718 := true
    eip2930 := true, eip3860 := false }

end ClassifierLemmas

/-- C1 (counterexample): the claim's single decision tree is false for two
of the cited implementations.  On flags with EIP-3855 true but EIP-3860
false, the part_008 `determineEVMVersion` returns "london", not the
"shanghai" the claimed tree demands; and on flags where only the
typed-transaction EIPs 2718/2930 hold, the part_000
`QuickAdvancedAuditor.determineEVMVersion` returns "unknown" where the
claimed tree returns "berlin". -/
theorem c1_counterexample :
    Part8.determineEVMVersion flagsPush0Only = "london" ∧
    flagsPush0Only.eip3855 = true ∧
    Quick.determineEVMVersion flagsTypedTxOnly = "unknown" ∧
    flagsTypedTxOnly.eip2718 = true ∧ flagsTypedTxOnly.eip2930 = true := by
  refine ⟨rfl, rfl, rfl, rfl, rfl⟩

/-- C1 (amended): `AdvancedEVMAuditor.determineEVMVersion` is exactly the
claimed ordered decision tree (shanghai on EIP-3855; else london on
EIP-1559 and EIP-3198; else berlin on EIP-2718 and EIP-2930; else istanbul
on EIP-1344; else unknown).  The part_008 variant agrees with that tree
whenever EIP-3860 and EIP-3651 are both true (its shanghai tier also
requires those two flags), and the part_000 QuickAdvancedAuditor variant
agrees whenever EIP-2718 and EIP-2930 are not both true (it omits the
berlin tier). -/
theorem c1_determineEVMVersion_tree :
    (∀ f : EipFlags, AdvancedEVM.determineEVMVersion f = specClassifyHardFork f) ∧
    (∀ f : EipFlags, f.eip3860 = true → f.eip3651 = true →
      Part8.determineEVMVersion f = specClassifyHardFork f) ∧
    (∀ f : EipFlags, (f.eip2718 && f.eip2930) = false →
      Quick.determineEVMVersion f = specClassifyHardFork f) := by
  refine ⟨fun f => rfl, ?_, ?_⟩
  · intro f h60 h51
    obtain ⟨a, b, c, d, e, g, h, i, j, k⟩ := f
    simp only at h60 h51
    subst h60 h51
    cases e <;> rfl
  · intro f hbe
    obtain ⟨a, b, c, d, e, g, h, i, j, k⟩ := f
    simp only [Bool.and_eq_false_iff] at hbe
    simp only [Quick.determineEVMVersion, specClassifyHardFork]
    rcases hbe with hi | hj
    · subst hi; simp
    · subst hj; simp

/-- C1 (witness for the amended theorem): applying it at the all-true flag
record discharges both hypotheses. -/
theorem c1_witness :
    Part8.determineEVMVersion
        ⟨true, true, true, true, true, true, true, true, true, true⟩ =
      specClassifyHardFork
        ⟨true, true, true, true, true, true, true, true, true, true⟩ :=
  c1_determineEVMVersion_tree.2.1
    ⟨true, true, true, true, true, true, true, true, true, true⟩ rfl rfl

namespace Definitive

/- src/scripts/definitive-audit.js, class DefinitiveAuditor. -/

/-- One entry of `shanghaiFeatures` / `londonFeatures`: on success the
script stores `{ supported: true, result }`, in the catch it stores
`{ supported: false, error: error.message }`. -/
structure ProbeResult where
  supported : Bool
  result : Option String
  error : Option String
  deriving DecidableEq, Repr

/-- The try/catch probe pattern of `testShanghaiFeatures` and
`testLondonFeatures` applied to one RPC outcome. -/
def probe (o : RpcOutcome String) : ProbeResult :=
  match o with
  | .ok v => { supported := true, result := some v, error := none }
  | .err m => { supported := false, result := none, error := some m }

/-- The RPC responses one run of the definitive auditor can observe. -/
structure Oracle where
  getBlockNumber : RpcOutcome Nat
  ethChainId : RpcOutcome Nat
  getBalance : RpcOutcome Nat
  callPush0 : RpcOutcome String
  callMcopy : RpcOutcome String
  getTransientStorage : RpcOutcome String
  getBeaconRoot : RpcOutcome String
  getBlockLatest : RpcOutcome BlockInfo
  callBasefee : RpcOutcome String
  callCoinbase : RpcOutcome String
  hasSigner : Bool
  deploy : RpcOutcome String
  contractPush0 : RpcOutcome String
  rpc : String → RpcOutcome String

/-- `testShanghaiFeatures` (lines 55-100): four independent try/catch
probes. -/
structure ShanghaiFeatures where
  push0 : ProbeResult
  mcopy : ProbeResult
  transientStorage : ProbeResult
  beaconRoot : ProbeResult
  deriving DecidableEq, Repr

def testShanghaiFeatures (o : Oracle) : ShanghaiFeatures where
  push0 := probe o.callPush0
  mcopy := probe o.callMcopy
  transientStorage := probe o.getTransientStorage
  beaconRoot := probe o.getBeaconRoot

/-- `testLondonFeatures` (lines 102-154): EIP-1559 via the latest block's
`baseFeePerGas`, EIP-3198/EIP-3651 via `eth_call`, EIP-1344 via
`eth_chainId`. -/
structure LondonFeatures where
  eip1559 : ProbeResult
  eip3198 : ProbeResult
  eip3651 : ProbeResult
  eip1344 : ProbeResult
  deriving DecidableEq, Repr

def testLondonFeatures (o : Oracle) : LondonFeatures where
  eip1559 :=
    match o.getBlockLatest with
    | .ok b =>
      match b.baseFeePerGas with
      | some f => { supported := decide (0 < f), result := none, error := none }
      | none => { supported := false, result := none, error := none }
    | .err m => { supported := false, result := none, error := some m }
  eip3198 := probe o.callBasefee
  eip3651 := probe o.callCoinbase
  eip1344 :=
    match o.ethChainId with
    | .ok cid => { supported := decide (0 < cid), result := none, error := none }
    | .err m => { supported := false, result := none, error := some m }

/-- `this.results.contractDeployment` after `testContractDeployment`
(lines 156-201): `{}` without a signer, a failure record when the deploy
throws, and otherwise a success record telling whether the deployed
contract's `testPush0()` call worked. -/
structure ContractDeployment where
  success : Option Bool := none
  address : Option String := none
  push0Working : Option Bool := none
  push0Result : Option String := none
  push0Error : Option String := none
  errMsg : Option String := none
  deriving DecidableEq, Repr

def testContractDeployment (o : Oracle) : ContractDeployment :=
  if o.hasSigner then
    match o.deploy with
    | .err m => { success := some false, errMsg := some m }
    | .ok addr =>
      match o.contractPush0 with
      | .ok v =>
        { success := some true, address := some addr
          push0Working := some true, push0Result := some v }
      | .err m =>
        { success := some true, address := some addr
          push0Working := some false, push0Error := some m }
  else {}

/-- The nine methods of `criticalRPCs` in `testRPCCompatibility`. -/
def criticalRPCs : List String :=
  ["eth_chainId", "eth_blockNumber", "eth_getBalance", "eth_gasPrice",
   "eth_estimateGas", "eth_call", "eth_sendRawTransaction",
   "eth_getTransactionReceipt", "eth_getLogs"]

structure RpcCompat where
  score : Nat
  supported : Nat
  total : Nat
  deriving DecidableEq, Repr

/-- `testRPCCompatibility` (lines 203-257): count the methods that respond
without throwing and report `Math.round((supported / total) * 100)`. -/
def testRPCCompatibility (o : Oracle) : RpcCompat :=
  let s := (criticalRPCs.filter (fun m => (o.rpc m).isOk)).length
  { score := jsRound (s * 100) criticalRPCs.length
    supported := s
    total := criticalRPCs.length }

/-- `determineEVMVersion` (lines 259-276): shanghai on the `eth_call` PUSH0
probe alone, london on the EIP-1559 and EIP-3198 probes, otherwise unknown.
The deployed-contract result is not consulted. -/
def determineEVMVersion (sh : ShanghaiFeatures) (lo : LondonFeatures) : String :=
  if sh.push0.supported then "shanghai"
  else if lo.eip1559.supported && lo.eip3198.supported then "london"
  else "unknown"

/-- `generateFinalVerdict` (lines 278-303). -/
structure FinalVerdict where
  evmVersion : String
  solidity0823Compatible : Bool
  productionReady : Bool
  push0Supported : Bool
  contractDeploymentWorking : Bool
  push0InContractWorking : Bool
  rpcCompatibilityScore : Nat
  deriving DecidableEq, Repr

def generateFinalVerdict (sh : ShanghaiFeatures) (lo : LondonFeatures)
    (cd : ContractDeployment) (rc : RpcCompat) : FinalVerdict :=
  let evmVersion := determineEVMVersion sh lo
  let push0Working := sh.push0.supported
  let contractDeployed := cd.success.getD false
  let push0InContract := cd.push0Working.getD false
  let solidityCompat := decide (evmVersion = "shanghai") && push0Working
  { evmVersion := evmVersion
    solidity0823Compatible := solidityCompat
    productionReady :=
      solidityCompat && contractDeployed && push0InContract &&
        decide (80 ≤ rc.score)
    push0Supported := push0Working
    contractDeploymentWorking := contractDeployed
    push0InContractWorking := push0InContract
    rpcCompatibilityScore := rc.score }

structure ConnInfo where
  chainId : Nat
  blockNumber : Nat
  balance : Option Nat
  deriving DecidableEq, Repr

structure Results where
  connection : Bool
  chainInfo : Option ConnInfo
  shanghaiFeatures : ShanghaiFeatures
  londonFeatures : LondonFeatures
  contractDeployment : ContractDeployment
  rpcCompatibility : RpcCompat
  evmVersion : String
  finalVerdict : FinalVerdict
  deriving DecidableEq, Repr

/-- `initialize` of the definitive auditor: sets `connection := true` and
records chain info when the connection calls succeed, and merely logs and
returns `false` otherwise. -/
def connectInit (o : Oracle) : Option ConnInfo :=
  match o.getBlockNumber, o.ethChainId with
  | .ok bn, .ok cid =>
    if o.hasSigner then
      match o.getBalance with
      | .ok b => some ⟨cid, bn, some b⟩
      | .err _ => none
    else some ⟨cid, bn, none⟩
  | _, _ => none

/-- `runDefinitiveAudit` (lines 426-445): NOTE it ignores the boolean
returned by `initialize`, so every phase runs and a report is produced even
when the connection failed. -/
def runDefinitiveAudit (o : Oracle) : Results :=
  let ci := connectInit o
  let sh := testShanghaiFeatures o
  let lo := testLondonFeatures o
  let cd := testContractDeployment o
  let rc := testRPCCompatibility o
  { connection := ci.isSome
    chainInfo := ci
    shanghaiFeatures := sh
    londonFeatures := lo
    contractDeployment := cd
    rpcCompatibility := rc
    evmVersion := determineEVMVersion sh lo
    finalVerdict := generateFinalVerdict sh lo cd rc }

/-- Probe responses that feed the feature flags and the label: everything
except the connection fields (`getBlockNumber`, `getBalance`) and the
deployment/RPC-score fields. -/
def probeView (o : Oracle) :
    RpcOutcome Nat × RpcOutcome String × RpcOutcome String ×
    RpcOutcome String × RpcOutcome String × RpcOutcome BlockInfo ×
    RpcOutcome String × RpcOutcome String :=
  (o.ethChainId, o.callPush0, o.callMcopy, o.getTransientStorage,
   o.getBeaconRoot, o.getBlockLatest, o.callBasefee, o.callCoinbase)

end Definitive

/-- C2 (counterexample): the dominance claim is false for the cited
`MultiChainAuditor.determineEVMVersion` (src/unnamed/part_004): on flags
with EIP-3855 true but EIP-3860 false it returns "london", not
"shanghai". -/
theorem c2_counterexample :
    flagsPush0Only.eip3855 = true ∧
    MultiChain.determineEVMVersion flagsPush0Only ≠ "shanghai" := by
  exact ⟨rfl, by decide⟩

/-- C2 (amended): EIP-3855 dominance holds for
`DefinitiveAuditor.determineEVMVersion` (a supported PUSH0 `eth_call` probe
alone forces "shanghai", whatever the London probes, the deployment result
or any other field says) and for `AdvancedEVMAuditor.determineEVMVersion`
(EIP-3855 alone forces "shanghai"); in the part_004 MultiChainAuditor
variant the shanghai tier needs EIP-3855, EIP-3860 and EIP-3651 together,
and only that conjunction dominates the lower tiers. -/
theorem c2_shanghai_dominates :
    (∀ sh : Definitive.ShanghaiFeatures, ∀ lo : Definitive.LondonFeatures,
      sh.push0.supported = true →
      Definitive.determineEVMVersion sh lo = "shanghai") ∧
    (∀ f : EipFlags, f.eip3855 = true →
      AdvancedEVM.determineEVMVersion f = "shanghai") ∧
    (∀ f : EipFlags, f.eip3855 = true → f.eip3860 = true → f.eip3651 = true →
      MultiChain.determineEVMVersion f = "shanghai") := by
  refine ⟨?_, ?_, ?_⟩
  · intro sh lo h
    simp [Definitive.determineEVMVersion, h]
  · intro f h
    simp [AdvancedEVM.determineEVMVersion, h]
  · intro f h1 h2 h3
    simp [MultiChain.determineEVMVersion, h1, h2, h3]

/-- C2 (witness): the dominance theorem applied at a concrete probe state
in which only PUSH0 succeeded. -/
theorem c2_witness :
    Definitive.determineEVMVersion
        ⟨Definitive.probe (.ok "0x"), Definitive.probe (.err "a"),
         Definitive.probe (.err "b"), Definitive.probe (.err "c")⟩
        ⟨Definitive.probe (.err "d"), Definitive.probe (.err "e"),
         Definitive.probe (.err "f"), Definitive.probe (.err "g")⟩ =
      "shanghai" :=
  c2_shanghai_dominates.1 _ _ rfl

/-- Helper: once EIP-2718 and EIP-2930 are both true, the advanced decision
tree stops at berlin or above. -/
theorem advanced_tree_at_least_berlin (e : EipFlags)
    (h1 : e.eip2718 = true) (h2 : e.eip2930 = true) :
    AdvancedEVM.determineEVMVersion e ≠ "istanbul" ∧
      AdvancedEVM.determineEVMVersion e ≠ "unknown" := by
  obtain ⟨a, b, c, d, e', g, h, i, j, k⟩ := e
  simp only at h1 h2
  subst h1 h2
  simp only [AdvancedEVM.determineEVMVersion]
  cases e' <;> cases a <;> cases c <;> simp

/-- C10: `testSolidity023Compatibility` hardcodes EIP-2718, EIP-2930 and
EIP-3860 to true before classification, so whatever the chain answered, the
berlin tier is satisfied and `determineEVMVersion` never returns "istanbul"
or "unknown" on a flag state the advanced auditor can actually build. -/
theorem c10_at_least_berlin :
    ∀ o : AdvancedEVM.Oracle,
      (AdvancedEVM.computeEips o).eip2718 = true ∧
      (AdvancedEVM.computeEips o).eip2930 = true ∧
      (AdvancedEVM.computeEips o).eip3860 = true ∧
      AdvancedEVM.determineEVMVersion (AdvancedEVM.computeEips o) ≠ "istanbul" ∧
      AdvancedEVM.determineEVMVersion (AdvancedEVM.computeEips o) ≠ "unknown" := by
  intro o
  refine ⟨rfl, rfl, rfl, ?_, ?_⟩
  · exact (advanced_tree_at_least_berlin (AdvancedEVM.computeEips o) rfl rfl).1
  · exact (advanced_tree_at_least_berlin (AdvancedEVM.computeEips o) rfl rfl).2

namespace EthDebug

/- src/scripts/ethereum-debug.js, lines 36-47 and 145-177. -/

/-- What the diagnostic script observes: the latest block and the PUSH0
`eth_call` probe (whose outcome it prints but never uses for the version
determination). -/
structure Obs where
  block : BlockInfo
  callPush0 : RpcOutcome String
  deriving DecidableEq, Repr

/-- JS truthiness of `block.baseFeePerGas` (a BigInt: truthy iff present and
nonzero). -/
def hasBaseFee (b : BlockInfo) : Bool :=
  match b.baseFeePerGas with
  | some f => decide (f ≠ 0)
  | none => false

/-- JS truthiness of `block.miner` (a string: truthy iff present and
nonempty). -/
def hasMiner (b : BlockInfo) : Bool :=
  match b.miner with
  | some a => decide (a ≠ "")
  | none => false

/-- The "Manual EVM Version Determination" (lines 145-177): count features
per tier (`berlinFeatures += 2` and `istanbulFeatures++` are unconditional)
and pick the first tier whose count reaches its threshold.  The PUSH0 probe
result plays no part. -/
def evmVersionOf (s : Obs) : String :=
  let shanghaiFeatures : Nat :=
    (if hasBaseFee s.block then 1 else 0) + (if hasMiner s.block then 1 else 0)
  let londonFeatures : Nat := if hasBaseFee s.block then 1 else 0
  let berlinFeatures : Nat := 2
  let istanbulFeatures : Nat := 1
  if 2 ≤ shanghaiFeatures then "shanghai"
  else if 1 ≤ londonFeatures then "london"
  else if 2 ≤ berlinFeatures then "berlin"
  else if 1 ≤ istanbulFeatures then "istanbul"
  else "unknown"

end EthDebug

namespace Comprehensive

/- src/scripts/comprehensive-smart-contract-test.js, lines 266-276. -/

/-- The `testResults` keys consulted by `generateComprehensiveReport`
(absent keys read as `undefined`, i.e. false). -/
structure TestResults where
  push0Opcode : Bool
  eip1559 : Bool
  eip2718 : Bool
  eip1344 : Bool
  deriving DecidableEq, Repr

/-- The EVM-version determination of `generateComprehensiveReport`. -/
def evmVersionOf (t : TestResults) : String :=
  if t.push0Opcode then "shanghai"
  else if t.eip1559 then "london"
  else if t.eip2718 then "berlin"
  else if t.eip1344 then "istanbul"
  else "unknown"

end Comprehensive

/-- A chain observation whose latest block carries a base fee and a miner
but whose PUSH0 probe reverts. -/
def ethDebugScenario : EthDebug.Obs :=
  { block := { baseFeePerGas := some 1000000000, miner := some "0x1111111111111111111111111111111111111111" }
    callPush0 := .err "invalid opcode: PUSH0" }

/-- C3 (counterexample): the invariant fails for the ethereum-debug
feature-counting determination: with a base fee and a miner present it
reports "shanghai" even though its own PUSH0 probe (the EIP-3855 evidence)
failed in the same run. -/
theorem c3_counterexample :
    EthDebug.evmVersionOf ethDebugScenario = "shanghai" ∧
    ethDebugScenario.callPush0.isOk = false := by
  exact ⟨rfl, rfl⟩

/-- C3 (amended): the decision-tree classifiers respect the invariant --
`AdvancedEVMAuditor.determineEVMVersion`, `DefinitiveAuditor.determineEVMVersion`
and the comprehensive-test report never emit a label unless the flags that
tier consults are all true in the same report -- but the ethereum-debug
feature-count determination does not: it can report "shanghai" while the
report's PUSH0 evidence is false (see the counterexample). -/
theorem c3_label_requires_flags :
    (∀ f : EipFlags,
      (AdvancedEVM.determineEVMVersion f = "shanghai" → f.eip3855 = true) ∧
      (AdvancedEVM.determineEVMVersion f = "london" →
        f.eip1559 = true ∧ f.eip3198 = true) ∧
      (AdvancedEVM.determineEVMVersion f = "berlin" →
        f.eip2718 = true ∧ f.eip2930 = true) ∧
      (AdvancedEVM.determineEVMVersion f = "istanbul" → f.eip1344 = true)) ∧
    (∀ sh : Definitive.ShanghaiFeatures, ∀ lo : Definitive.LondonFeatures,
      (Definitive.determineEVMVersion sh lo = "shanghai" →
        sh.push0.supported = true) ∧
      (Definitive.determineEVMVersion sh lo = "london" →
        lo.eip1559.supported = true ∧ lo.eip3198.supported = true)) ∧
    (∀ t : Comprehensive.TestResults,
      (Comprehensive.evmVersionOf t = "shanghai" → t.push0Opcode = true) ∧
      (Comprehensive.evmVersionOf t = "london" → t.eip1559 = true) ∧
      (Comprehensive.evmVersionOf t = "berlin" → t.eip2718 = true) ∧
      (Comprehensive.evmVersionOf t = "istanbul" → t.eip1344 = true)) := by
  refine ⟨?_, ?_, ?_⟩
  · intro f
    obtain ⟨a, b, c, d, e, g, h, i, j, k⟩ := f
    revert a b c d e g h i j k
    decide
  · intro sh lo
    simp only [Definitive.determineEVMVersion]
    rcases hp : sh.push0.supported <;>
      rcases h9 : lo.eip1559.supported <;>
        rcases h8 : lo.eip3198.supported <;> simp
  · intro t
    obtain ⟨a, b, c, d⟩ := t
    revert a b c d
    decide

/-- C3 (witness): the invariant theorem applied at the all-true flag
record. -/
theorem c3_witness :
    EipFlags.eip3855 ⟨true, true, true, true, true, true, true, true, true, true⟩ = true :=
  (c3_label_requires_flags.1
      ⟨true, true, true, true, true, true, true, true, true, true⟩).1 rfl

/-- A definitive-audit oracle realizing spec scenario C: the PUSH0
`eth_call` probe succeeds, the contract deploys, but the deployed
contract's real PUSH0 execution reverts with "invalid opcode". -/
def scenarioC : Definitive.Oracle :=
  { getBlockNumber := .ok 1000000
    ethChainId := .ok 9982
    getBalance := .ok 5
    callPush0 := .ok "0x"
    callMcopy := .err "invalid opcode: MCOPY"
    getTransientStorage := .err "method not found"
    getBeaconRoot := .err "method not found"
    getBlockLatest := .ok { baseFeePerGas := some 7, miner := some "0x0" }
    callBasefee := .ok "0x"
    callCoinbase := .ok "0x"
    hasSigner := true
    deploy := .ok "0x2222222222222222222222222222222222222222"
    contractPush0 := .err "invalid opcode"
    rpc := fun _ => .ok "0x" }

/-- C6 (counterexample): in scenario C the deployed-contract result does
NOT take precedence: `runDefinitiveAudit` still reports
`evmVersion = "shanghai"` even though the same report records the
deployed-contract PUSH0 execution as failed. -/
theorem c6_counterexample :
    (Definitive.runDefinitiveAudit scenarioC).evmVersion = "shanghai" ∧
    (Definitive.runDefinitiveAudit scenarioC).contractDeployment.push0Working =
      some false := by
  exact ⟨rfl, rfl⟩

/-- C6 (amended): the deployed-contract probe never influences the
HardForkLabel: whenever the PUSH0 `eth_call` probe succeeds the label is
"shanghai" regardless of the deployment outcome; the deployed-contract
revert is reflected only in the final verdict, whose
`push0InContractWorking` is false and whose `productionReady` is therefore
false. -/
theorem c6_label_ignores_contract :
    ∀ (o : Definitive.Oracle) (v : String) (addr : String) (m : String),
      o.callPush0 = .ok v → o.hasSigner = true →
      o.deploy = .ok addr → o.contractPush0 = .err m →
      (Definitive.runDefinitiveAudit o).evmVersion = "shanghai" ∧
      (Definitive.runDefinitiveAudit o).finalVerdict.push0InContractWorking = false ∧
      (Definitive.runDefinitiveAudit o).finalVerdict.productionReady = false := by
  intro o v addr m hcall hsig hdep hcp
  have hsh : (Definitive.testShanghaiFeatures o).push0.supported = true := by
    simp [Definitive.testShanghaiFeatures, hcall, Definitive.probe]
  have hcd : (Definitive.testContractDeployment o).push0Working = some false := by
    simp [Definitive.testContractDeployment, hsig, hdep, hcp]
  refine ⟨?_, ?_, ?_⟩
  · simp [Definitive.runDefinitiveAudit, Definitive.determineEVMVersion, hsh]
  · simp [Definitive.runDefinitiveAudit, Definitive.generateFinalVerdict, hcd]
  · simp [Definitive.runDefinitiveAudit, Definitive.generateFinalVerdict, hcd]

/-- C6 (witness): the amended theorem applied to the concrete scenario C
oracle. -/
theorem c6_witness :
    (Definitive.runDefinitiveAudit scenarioC).evmVersion = "shanghai" ∧
    (Definitive.runDefinitiveAudit scenarioC).finalVerdict.push0InContractWorking = false ∧
    (Definitive.runDefinitiveAudit scenarioC).finalVerdict.productionReady = false :=
  c6_label_ignores_contract scenarioC "0x"
    "0x2222222222222222222222222222222222222222" "invalid opcode"
    rfl rfl rfl rfl

namespace AdvancedFixed

/- src/unnamed/part_001, class AdvancedEVMAuditorFixed,
testSolidity023Compatibility (probe try/catch blocks, lines 119-160). -/

/-- The flag-style probe of part_001: each `eth_call` try/catch stores only
`true` on success and `false` in the catch -- the error message is printed
nowhere and not retained. -/
def eipFlagOf (o : RpcOutcome String) : Bool :=
  match o with
  | .ok _ => true
  | .err _ => false

end AdvancedFixed

/-- C4 (counterexample): the "error message preserved" half of the claim is
false for the cited part_001 probes.  Two failures with different messages
leave exactly the same stored result (the bare flag `false`), so the
message is not preserved anywhere in the result -- unlike the
DefinitiveAuditor probe, which keeps the two messages apart. -/
theorem c4_counterexample :
    AdvancedFixed.eipFlagOf (.err "invalid opcode") =
      AdvancedFixed.eipFlagOf (.err "limit exceeded") ∧
    "invalid opcode" ≠ "limit exceeded" ∧
    Definitive.probe (.err "invalid opcode") ≠
      Definitive.probe (.err "limit exceeded") := by
  refine ⟨rfl, by decide, by decide⟩

/-- C4 (amended): every probe is total over the RPC outcome (the try/catch
swallows every throw, so nothing escapes to the caller) and records a
failure as `succeeded = false`; the DefinitiveAuditor probes additionally
preserve the thrown message in the `error` field and the returned value in
`result`, while the part_001 flag probes record only the boolean and
discard the message. -/
theorem c4_probe_never_raises :
    (∀ v : String, Definitive.probe (.ok v) =
      { supported := true, result := some v, error := none }) ∧
    (∀ m : String, Definitive.probe (.err m) =
      { supported := false, result := none, error := some m }) ∧
    (∀ o : RpcOutcome String, (Definitive.probe o).supported = o.isOk) ∧
    (∀ m : String, AdvancedFixed.eipFlagOf (.err m) = false) ∧
    (∀ o : RpcOutcome String, AdvancedFixed.eipFlagOf o = o.isOk) := by
  refine ⟨fun v => rfl, fun m => rfl, ?_, fun m => rfl, ?_⟩
  · intro o
    cases o <;> rfl
  · intro o
    cases o <;> rfl

/-- Modelled from the spec (section 4.1 `runAudit` / section 8 coverage
scenario): the RPC-method coverage score is the number of listed methods
that respond without error, divided by the list's length, times 100,
rounded to a whole percent. -/
def specCoverageScore (s total : Nat) : Nat :=
  jsRound (s * 100) total

namespace Core

/- src/scripts/core-audit.js, class CoreAuditor. -/

/-- A block fetched during the finality test. -/
structure FinBlock where
  number : Int
  timestamp : Int
  deriving DecidableEq, Repr

/-- The RPC and contract-call responses one core-audit run can observe. -/
structure Oracle where
  getBlockNumber : RpcOutcome Nat
  ethChainId : RpcOutcome Nat
  getBalance : RpcOutcome Nat
  rpc : String → RpcOutcome String
  receiptsWorkaround : RpcOutcome Nat
  factory : RpcOutcome Unit
  deploy : RpcOutcome String
  cEip1559 : RpcOutcome (Nat × Nat)
  cChainId : RpcOutcome Nat
  cEip3198 : RpcOutcome Nat
  cEip3651 : RpcOutcome String
  cOpcodes : RpcOutcome (List Nat)
  finCurrentBlock : RpcOutcome Int
  finBlock : Int → RpcOutcome FinBlock
  code6 : RpcOutcome String
  code7 : RpcOutcome String

structure ConnInfo where
  chainId : Nat
  blockNumber : Nat
  balance : Option Nat
  deriving DecidableEq, Repr

/-- `CoreAuditor.initialize` (lines 27-57): unlike the other auditors it
RETHROWS on failure, so a failed connection aborts `runFullAudit` with the
underlying error. -/
def connectInit (hasSigner : Bool) (o : Oracle) : Except String ConnInfo :=
  match o.getBlockNumber with
  | .err m => .error m
  | .ok bn =>
    match o.ethChainId with
    | .err m => .error m
    | .ok cid =>
      if hasSigner then
        match o.getBalance with
        | .err m => .error m
        | .ok b => .ok ⟨cid, bn, some b⟩
      else .ok ⟨cid, bn, none⟩

/-- The ten methods of `testRPCMethods` (lines 62-73). -/
def rpcMethodsList : List String :=
  ["eth_chainId", "eth_getLogs", "eth_feeHistory", "eth_syncing",
   "eth_maxPriorityFeePerGas", "eth_gasPrice", "eth_blockNumber",
   "eth_getBalance", "eth_call", "eth_estimateGas"]

/-- One method's `supported` flag: `true` when the call returns; on a throw,
only `eth_getLogs` with a "limit exceeded" message gets a second chance via
the receipts workaround (lines 103-129). -/
def methodSupported (o : Oracle) (m : String) : Bool :=
  match o.rpc m with
  | .ok _ => true
  | .err msg =>
    if m = "eth_getLogs" && msg.containsSubstr "limit exceeded" then
      o.receiptsWorkaround.isOk
    else false

def testRPCMethods (o : Oracle) : List (String × Bool) :=
  rpcMethodsList.map (fun m => (m, methodSupported o m))

/-- `this.results.eips` of the core auditor: the ten boolean flags plus the
two auxiliary `EIP-1559_*` booleans and the `Note` string some branches
add. -/
structure CoreEips where
  eip1559 : Bool
  eip1344 : Bool
  eip3198 : Bool
  eip3651 : Bool
  eip3855 : Bool
  eip211 : Bool
  eip145 : Bool
  eip2718 : Bool
  eip2930 : Bool
  eip3860 : Bool
  eip1559BaseFee : Option Bool := none
  eip1559PriorityFee : Option Bool := none
  note : Option String := none
  deriving DecidableEq, Repr

structure CoreOpcodes where
  push0 : Bool
  returndatasize : Bool
  shl : Bool
  shr : Bool
  callcode : Bool
  note : Option String := none
  deriving DecidableEq, Repr

/-- All ten EIP flags true (the read-only "simulated" block, lines 217-239). -/
def allTrueEips : CoreEips :=
  { eip1559 := true, eip1344 := true, eip2718 := true, eip2930 := true
    eip3198 := true, eip3651 := true, eip3860 := true, eip3855 := true
    eip211 := true, eip145 := true }

def allTrueOpcodes : CoreOpcodes :=
  { push0 := true, returndatasize := true, shl := true, shr := true
    callcode := true }

/-- The catch fallback (lines 242-267): the same all-true flags plus a
note. -/
def fallbackEips : CoreEips :=
  { allTrueEips with note := some "Fallback values due to testing error" }

def fallbackOpcodes : CoreOpcodes :=
  { allTrueOpcodes with note := some "Fallback values due to testing error" }

def CoreEips.allTen (e : CoreEips) : Bool :=
  e.eip1559 && e.eip1344 && e.eip3198 && e.eip3651 && e.eip3855 &&
    e.eip211 && e.eip145 && e.eip2718 && e.eip2930 && e.eip3860

def CoreOpcodes.allFive (c : CoreOpcodes) : Bool :=
  c.push0 && c.returndatasize && c.shl && c.shr && c.callcode

structure EipsOutcome where
  eips : CoreEips
  opcodes : CoreOpcodes
  deployment : Bool
  deriving DecidableEq, Repr

/-- `CoreAuditor.testEIPs` (lines 135-268).  `getContractFactory` runs
first (a throw lands in the catch fallback).  With a signer the test
contract is deployed (a throw again lands in the fallback) and the
individual contract probes each have their own try/catch; without a signer
the all-true "simulated" flags are stored without issuing any probe.
EIP-2718/2930/3860 are hardcoded true in the signer branch as well. -/
def testEIPs (hasSigner : Bool) (o : Oracle) : EipsOutcome :=
  match o.factory with
  | .err _ =>
    { eips := fallbackEips, opcodes := fallbackOpcodes, deployment := false }
  | .ok _ =>
    if hasSigner then
      match o.deploy with
      | .err _ =>
        { eips := fallbackEips, opcodes := fallbackOpcodes, deployment := false }
      | .ok _ =>
        let opc : CoreOpcodes :=
          match o.cOpcodes with
          | .ok arr =>
            { push0 := decide (0 < arr.length)
              returndatasize := decide (0 < arr.length)
              shl := decide (0 < arr.length)
              shr := decide (0 < arr.length)
              callcode := true }
          | .err _ =>
            { push0 := false, returndatasize := false, shl := false
              shr := false, callcode := false }
        { eips :=
            { eip1559 :=
                match o.cEip1559 with
                | .ok bp => decide (0 < bp.1)
                | .err _ => false
              eip1559BaseFee :=
                match o.cEip1559 with
                | .ok bp => some (decide (0 < bp.1))
                | .err _ => none
              eip1559PriorityFee :=
                match o.cEip1559 with
                | .ok bp => some (decide (0 ≤ bp.2))
                | .err _ => none
              eip1344 :=
                match o.cChainId with
                | .ok c => decide (0 < c)
                | .err _ => false
              eip3198 :=
                match o.cEip3198 with
                | .ok v => decide (0 ≤ v)
                | .err _ => false
              eip3651 :=
                match o.cEip3651 with
                | .ok cb =>
                  decide (cb ≠ "0x0000000000000000000000000000000000000000")
                | .err _ => false
              eip2718 := true
              eip2930 := true
              eip3860 := true
              eip3855 := opc.push0
              eip211 := opc.returndatasize
              eip145 := opc.shl && opc.shr }
          opcodes := opc
          deployment := true }
    else
      { eips := allTrueEips, opcodes := allTrueOpcodes, deployment := false }

/-- `Object.values(this.results.eips).filter(eip => eip === true).length`:
the ten flags plus the two auxiliary EIP-1559 booleans when present (error
strings and the note are never `=== true`). -/
def trueCount (e : CoreEips) : Nat :=
  ([e.eip1559, e.eip1344, e.eip3198, e.eip3651, e.eip3855, e.eip211,
    e.eip145, e.eip2718, e.eip2930, e.eip3860].countP id) +
    (if e.eip1559BaseFee = some true then 1 else 0) +
    (if e.eip1559PriorityFee = some true then 1 else 0)

structure FinalityStats where
  averageBlockTime : ℚ
  maxBlockTime : Int
  minBlockTime : Int
  isStable : Bool
  deriving DecidableEq, Repr

/-- `CoreAuditor.testFinality` (lines 270-311): fetch the last five blocks
(the first throw lands in the catch, which stores only `{ error }` --
modelled as `Except.error`), compute the four successive block-time
differences, their average (an exact float: a sum of integers divided by
4), max and min, and the stability verdict `avg < 15 && max < 30`. -/
def testFinality (o : Oracle) : Except String FinalityStats :=
  match o.finCurrentBlock with
  | .err m => .error m
  | .ok cur =>
    match o.finBlock cur with
    | .err m => .error m
    | .ok b0 =>
      match o.finBlock (cur - 1) with
      | .err m => .error m
      | .ok b1 =>
        match o.finBlock (cur - 2) with
        | .err m => .error m
        | .ok b2 =>
          match o.finBlock (cur - 3) with
          | .err m => .error m
          | .ok b3 =>
            match o.finBlock (cur - 4) with
            | .err m => .error m
            | .ok b4 =>
              let t1 := b0.timestamp - b1.timestamp
              let t2 := b1.timestamp - b2.timestamp
              let t3 := b2.timestamp - b3.timestamp
              let t4 := b3.timestamp - b4.timestamp
              let avg : ℚ := ((t1 + t2 + t3 + t4 : Int) : ℚ) / 4
              let maxT := max t1 (max t2 (max t3 t4))
              let minT := min t1 (min t2 (min t3 t4))
              .ok { averageBlockTime := avg
                    maxBlockTime := maxT
                    minBlockTime := minT
                    isStable := decide (avg < 15) && decide (maxT < 30) }

/-- `CoreAuditor.testERC4337` (lines 313-350): supported when either
EntryPoint address has nonempty code; per-address errors are skipped. -/
def testERC4337 (o : Oracle) : Bool :=
  (match o.code6 with
   | .ok c => decide (c ≠ "0x")
   | .err _ => false) ||
  (match o.code7 with
   | .ok c => decide (c ≠ "0x")
   | .err _ => false)

/-- `rpcScore` of `testIntegration` (line 367):
`Math.min(100, (supported / 10) * 100)`. -/
def rpcScore (s : Nat) : Nat :=
  min 100 (s * 10)

/-- `eipScore` of `testIntegration` (line 368). -/
def eipScore (s : Nat) : Nat :=
  min 100 (s * 10)

structure Platform where
  ready : Bool
  score : Nat
  deriving DecidableEq, Repr

structure Integration where
  fireblocks : Platform
  metamask : Platform
  walletconnect : Platform
  layerzero : Platform
  bridges : Platform
  deriving DecidableEq, Repr

/-- `CoreAuditor.testIntegration` (lines 352-415): a pure computation over
the already-collected results; it cannot throw. -/
def testIntegration (rpcMethods : List (String × Bool)) (eips : CoreEips)
    (finality : Except String FinalityStats) : Integration :=
  let rpcSupported := rpcMethods.countP (fun p => p.2)
  let eipsSupported := trueCount eips
  let hasEIP1559 := eips.eip1559
  let hasStableFinality :=
    match finality with
    | .ok st => st.isStable
    | .error _ => false
  let rs := rpcScore rpcSupported
  let es := eipScore eipsSupported
  let fs := if hasStableFinality then 100 else 50
  { fireblocks :=
      { ready := decide (8 ≤ rpcSupported) && hasEIP1559 && hasStableFinality
        score := jsRound (rs + es + fs) 3 }
    metamask :=
      { ready := hasEIP1559 && hasStableFinality
        score := jsRound (es + fs) 2 }
    walletconnect := { ready := hasEIP1559, score := es }
    layerzero :=
      { ready := hasEIP1559 && hasStableFinality
        score := jsRound (es + fs) 2 }
    bridges :=
      { ready := hasEIP1559 && hasStableFinality
        score := jsRound (es + fs) 2 } }

structure Results where
  chainInfo : ConnInfo
  rpcMethods : List (String × Bool)
  deployment : Bool
  eips : CoreEips
  opcodes : CoreOpcodes
  finality : Except String FinalityStats
  erc4337 : Bool
  integration : Integration

/-- The throwing behaviour of `CoreAuditor.printReport` (lines 477-558).
Every section formats already-present data EXCEPT the finality section
(lines 521-527): both of its branches evaluate
`this.results.finality.averageBlockTime.toFixed(2)`, and when
`testFinality` failed the stored object is `{ error }`, so
`averageBlockTime` is `undefined` and the access throws a TypeError.  All
other console output is pure string formatting and is elided. -/
def printReport (r : Results) : Except String Unit :=
  match r.finality with
  | .ok _ => .ok ()
  | .error _ =>
    .error "TypeError: cannot read toFixed of undefined averageBlockTime"

/-- `CoreAuditor.runFullAudit` (lines 560-577): everything runs inside one
try whose catch rethrows, so a throw from `initialize` or from
`printReport` aborts the audit with no report value. -/
def runFullAudit (hasSigner : Bool) (o : Oracle) : Except String Results :=
  match connectInit hasSigner o with
  | .error m => .error m
  | .ok ci =>
    let rm := testRPCMethods o
    let eo := testEIPs hasSigner o
    let fin := testFinality o
    let erc := testERC4337 o
    let res : Results :=
      { chainInfo := ci
        rpcMethods := rm
        deployment := eo.deployment
        eips := eo.eips
        opcodes := eo.opcodes
        finality := fin
        erc4337 := erc
        integration := testIntegration rm eo.eips fin }
    match printReport res with
    | .error m => .error m
    | .ok _ => .ok res

end Core

/-- A core-audit oracle: the connection succeeds, every plain RPC call
succeeds, but the block fetches of the finality test fail (e.g. the node
rate-limits `eth_getBlockByNumber` mid-run). -/
def finalityFailOracle : Core.Oracle :=
  { getBlockNumber := .ok 100
    ethChainId := .ok 9982
    getBalance := .ok 5
    rpc := fun _ => .ok "0x"
    receiptsWorkaround := .ok 0
    factory := .ok ()
    deploy := .ok "0x2222222222222222222222222222222222222222"
    cEip1559 := .ok (7, 1500000000)
    cChainId := .ok 9982
    cEip3198 := .ok 7
    cEip3651 := .ok "0x1111111111111111111111111111111111111111"
    cOpcodes := .ok [1, 2, 3]
    finCurrentBlock := .ok 100
    finBlock := fun _ => .err "rate limited"
    code6 := .ok "0x"
    code7 := .ok "0x"
  }

/-- A definitive-audit oracle whose initial connection fails. -/
def connFailOracle : Definitive.Oracle :=
  { getBlockNumber := .err "connect ECONNREFUSED"
    ethChainId := .err "connect ECONNREFUSED"
    getBalance := .err "connect ECONNREFUSED"
    callPush0 := .ok "0x"
    callMcopy := .err "invalid opcode"
    getTransientStorage := .err "method not found"
    getBeaconRoot := .err "method not found"
    getBlockLatest := .ok { baseFeePerGas := some 7, miner := some "0x0" }
    callBasefee := .ok "0x"
    callCoinbase := .ok "0x"
    hasSigner := false
    deploy := .err "no signer"
    contractPush0 := .err "no signer"
    rpc := fun _ => .ok "0x" }

/-- C5: the claimed "raises iff the connection fails" breaks in both
directions.  In `CoreAuditor`, a finality-probe failure AFTER a successful
connection still aborts the whole audit: `testFinality` records the error
as data, but `printReport` then dereferences the missing
`averageBlockTime` and the resulting TypeError is rethrown by
`runFullAudit`, so no report is produced.  And
`DefinitiveAuditor.runDefinitiveAudit` ignores the failure flag returned by
its `initialize`, producing a full report even when the connection failed.
The claim (and the spec's error-handling design, which the code's own
catch-and-record structure tries to implement) says neither can happen. -/
theorem c5_code_bug :
    Core.connectInit false finalityFailOracle = .ok ⟨9982, 100, none⟩ ∧
    (Core.runFullAudit false finalityFailOracle).isOk = false ∧
    (Definitive.runDefinitiveAudit connFailOracle).connection = false ∧
    (Definitive.runDefinitiveAudit connFailOracle).evmVersion = "shanghai" := by
  refine ⟨rfl, rfl, rfl, rfl⟩

/-- C7: the coverage score of both cited implementations equals the spec's
formula (successes / list length * 100, rounded); the core list has 10
methods, the definitive list 9; and 8 successes out of 10 give exactly
80%. -/
theorem c7_coverage_score :
    (∀ s : Nat, s ≤ 10 → Core.rpcScore s = specCoverageScore s 10) ∧
    (∀ o : Definitive.Oracle,
      (Definitive.testRPCCompatibility o).score =
        specCoverageScore
          ((Definitive.criticalRPCs.filter (fun m => (o.rpc m).isOk)).length)
          Definitive.criticalRPCs.length) ∧
    Core.rpcMethodsList.length = 10 ∧
    Definitive.criticalRPCs.length = 9 ∧
    specCoverageScore 8 10 = 80 := by
  refine ⟨?_, fun o => rfl, rfl, rfl, rfl⟩
  intro s hs
  simp only [Core.rpcScore, specCoverageScore, jsRound]
  omega

/-- C7 (witness): the score formula applied at 8 of 10. -/
theorem c7_witness : Core.rpcScore 8 = specCoverageScore 8 10 :=
  c7_coverage_score.1 8 (by norm_num)

/-- C9: with no signing key, `testEIPs` stores the all-true "simulated"
flags (all ten EIPs, all five opcodes); when the test phase throws (factory
or deployment), the catch stores the same all-true flags as a fallback; and
the read-only result never depends on any probe response. -/
theorem c9_readonly_reports_full_support :
    (∀ o : Core.Oracle,
      (Core.testEIPs false o).eips.allTen = true ∧
      (Core.testEIPs false o).opcodes.allFive = true) ∧
    (∀ (o : Core.Oracle) (m : String), o.deploy = .err m →
      (Core.testEIPs true o).eips.allTen = true ∧
      (Core.testEIPs true o).opcodes.allFive = true) ∧
    (∀ o o2 : Core.Oracle, o.factory = o2.factory →
      Core.testEIPs false o = Core.testEIPs false o2) := by
  refine ⟨?_, ?_, ?_⟩
  · intro o
    cases hf : o.factory <;>
      simp [Core.testEIPs, hf, Core.fallbackEips, Core.allTrueEips,
        Core.fallbackOpcodes, Core.allTrueOpcodes, Core.CoreEips.allTen,
        Core.CoreOpcodes.allFive]
  · intro o m hd
    cases hf : o.factory <;>
      simp [Core.testEIPs, hf, hd, Core.fallbackEips, Core.allTrueEips,
        Core.fallbackOpcodes, Core.allTrueOpcodes, Core.CoreEips.allTen,
        Core.CoreOpcodes.allFive]
  · intro o o2 h
    cases hf : o.factory <;> cases hf2 : o2.factory <;>
      rw [hf, hf2] at h <;> simp_all [Core.testEIPs]

/-- C9 (witness): the fallback branch applied at a concrete oracle whose
deployment throws. -/
theorem c9_witness :
    (Core.testEIPs true
        { finalityFailOracle with deploy := .err "insufficient funds" }
      ).eips.allTen = true ∧
    (Core.testEIPs true
        { finalityFailOracle with deploy := .err "insufficient funds" }
      ).opcodes.allFive = true :=
  c9_readonly_reports_full_support.2.1
    { finalityFailOracle with deploy := .err "insufficient funds" }
    "insufficient funds" rfl

/-- C8: the FeatureFlags and the HardForkLabel are deterministic functions
of the probe responses alone.  For the advanced auditor, two runs whose
probe responses agree produce reports with identical `eips` and
`evmVersion`, whatever the connection metadata (`blockNumber`, `balance`)
says; for the definitive auditor, the probe features and the label likewise
depend only on the probe responses. -/
theorem c8_flags_deterministic :
    (∀ (o1 o2 : AdvancedEVM.Oracle) (hs : Bool),
      AdvancedEVM.probeView o1 = AdvancedEVM.probeView o2 →
      (AdvancedEVM.connectInit hs o1).isSome = true →
      (AdvancedEVM.connectInit hs o2).isSome = true →
      (AdvancedEVM.runFullAudit hs o1).map (fun r => (r.eips, r.evmVersion)) =
        (AdvancedEVM.runFullAudit hs o2).map (fun r => (r.eips, r.evmVersion))) ∧
    (∀ o1 o2 : Definitive.Oracle,
      Definitive.probeView o1 = Definitive.probeView o2 →
      (Definitive.runDefinitiveAudit o1).shanghaiFeatures =
          (Definitive.runDefinitiveAudit o2).shanghaiFeatures ∧
      (Definitive.runDefinitiveAudit o1).londonFeatures =
          (Definitive.runDefinitiveAudit o2).londonFeatures ∧
      (Definitive.runDefinitiveAudit o1).evmVersion =
          (Definitive.runDefinitiveAudit o2).evmVersion) := by
  constructor
  · intro o1 o2 hs h hc1 hc2
    simp only [AdvancedEVM.probeView, Prod.mk.injEq] at h
    obtain ⟨h1, h2, h3, h4, h5, h6, h7⟩ := h
    have heips : AdvancedEVM.computeEips o1 = AdvancedEVM.computeEips o2 := by
      simp [AdvancedEVM.computeEips, h1, h2, h3, h4, h5, h6, h7]
    unfold AdvancedEVM.runFullAudit
    cases hco1 : AdvancedEVM.connectInit hs o1 with
    | none => rw [hco1] at hc1; simp at hc1
    | some ci1 =>
      cases hco2 : AdvancedEVM.connectInit hs o2 with
      | none => rw [hco2] at hc2; simp at hc2
      | some ci2 => simp [heips]
  · intro o1 o2 h
    simp only [Definitive.probeView, Prod.mk.injEq] at h
    obtain ⟨h1, h2, h3, h4, h5, h6, h7, h8⟩ := h
    refine ⟨?_, ?_, ?_⟩ <;>
      simp [Definitive.runDefinitiveAudit, Definitive.testShanghaiFeatures,
        Definitive.testLondonFeatures, Definitive.determineEVMVersion,
        h1, h2, h3, h4, h5, h6, h7, h8]

/-- Two advanced-audit oracles for the same chain state at the same probe
responses, differing only in the reported block height and the signer
balance. -/
def advRunOne : AdvancedEVM.Oracle :=
  { getBlockNumber := .ok 1000
    ethChainId := .ok 9982
    getBalance := .ok 5
    getBlockLatest := .ok { baseFeePerGas := some 7, miner := some "0x0" }
    callBasefee := .ok "0x"
    callPush0 := .err "invalid opcode"
    callReturndatasize := .ok "0x"
    callShl := .ok "0x"
    callShr := .ok "0x"
    deploy := .ok "0x2222222222222222222222222222222222222222" }

def advRunTwo : AdvancedEVM.Oracle :=
  { advRunOne with getBlockNumber := .ok 1001, getBalance := .ok 4 }

/-- C8 (witness): the determinism theorem applied to two concrete runs that
differ only in block number and balance. -/
theorem c8_witness :
    (AdvancedEVM.runFullAudit true advRunOne).map (fun r => (r.eips, r.evmVersion)) =
      (AdvancedEVM.runFullAudit true advRunTwo).map (fun r => (r.eips, r.evmVersion)) :=
  c8_flags_deterministic.1 advRunOne advRunTwo true rfl rfl rfl
